import Mathlib

/-
Shallow embedding of the pinokkio single-threaded async runtime.

Sources embedded here:
  src/oneshot.rs : the one-shot mailbox (ChannelStatus, Sender, Receiver)
  src/rt.rs      : the Runtime (task table, ready queue, waker, poll, spawn, block_on)
  src/tasks.rs   : Task and TaskMonitor
  src/timers.rs  : the timer wheel tick (SleepSubroutine::poll) and Sleep::poll

Instants and Durations are modelled by Nat.  A task::Waker is modelled by the
task identifier it is bound to, since the rt.rs waker data is exactly
(queue sender, id, host thread) and invoking it pushes the id and unparks.
Rust panics (panic!, unwrap, expect, unreachable!) are modelled as a
distinguished `none` / `panicked` outcome; fallible operations return
Option / Except.
-/

namespace Pinokkio

/-- Status of a one-shot channel, from ChannelStatus in src/oneshot.rs. -/
inductive ChannelStatus (T : Type) where
  | Pending
  | Closed
  | Active (t : T)
  | Consumed
deriving DecidableEq

/-- Error type for try_recv, from TryRecvError in src/oneshot.rs. -/
inductive TryRecvError where
  | Empty
  | Disconnected
deriving DecidableEq

/-- Model of Sender::send in src/oneshot.rs.  The sender is consumed; the
result is the Rust Result<(), T> (ok on success, error carrying the value
back when the receiver closed) paired with the new channel status.
none models the unreachable double-send panic. -/
def Sender.send {T : Type} (st : ChannelStatus T) (data : T) :
    Option (Except T Unit × ChannelStatus T) :=
  match st with
  | .Pending => some (.ok (), .Active data)
  | .Closed => some (.error data, .Closed)
  | .Active _ => none
  | .Consumed => none

/-- Model of Receiver::try_recv in src/oneshot.rs: the Rust
Result<T, TryRecvError> paired with the new channel status. -/
def Receiver.try_recv {T : Type} (st : ChannelStatus T) :
    Except TryRecvError T × ChannelStatus T :=
  match st with
  | .Active d => (.ok d, .Consumed)
  | .Pending => (.error .Empty, .Pending)
  | .Consumed => (.error .Disconnected, .Consumed)
  | .Closed => (.error .Disconnected, .Closed)

/-- Model of the Drop impl for Sender in src/oneshot.rs. -/
def Sender.drop {T : Type} (st : ChannelStatus T) : ChannelStatus T :=
  match st with
  | .Pending => .Closed
  | s => s

/-- Model of the Drop impl for Receiver in src/oneshot.rs (the status
transition it performs; storage release is out of scope). -/
def Receiver.drop {T : Type} (st : ChannelStatus T) : ChannelStatus T :=
  match st with
  | .Pending => .Closed
  | s => s

/-- A task::Waker is modelled by the task identifier it is bound to
(src/rt.rs WakerData is (queue sender, id, host thread)). -/
abbrev Waker := Nat

/-- Observable effects of invoking a waker. -/
inductive WakeEffect where
  | unpark
  | push (id : Nat)
deriving DecidableEq

/-- Model of wake_by_ref in src/rt.rs (create_waker): the body is
thread.unpark() followed by sender.send(id); the list records the two
effects in program order. -/
def wake_by_ref (id : Nat) : List WakeEffect :=
  [WakeEffect.unpark, WakeEffect.push id]

/-- The identifiers a list of wake effects pushes onto the ready queue. -/
def pushes (es : List WakeEffect) : List Nat :=
  es.filterMap (fun e => match e with | .push i => some i | .unpark => none)

/-- The heap of one-shot channels a running scheduler has allocated:
result channels (payload is the task output) and waker channels
(payload is a task::Waker), each addressed by index of allocation. -/
structure World (A : Type) where
  results : List (ChannelStatus A)
  wakers : List (ChannelStatus Waker)
deriving DecidableEq

def World.getRes {A : Type} (w : World A) (i : Nat) : ChannelStatus A :=
  w.results.getD i .Closed

def World.setRes {A : Type} (w : World A) (i : Nat) (s : ChannelStatus A) : World A :=
  ⟨w.results.set i s, w.wakers⟩

def World.getWak {A : Type} (w : World A) (i : Nat) : ChannelStatus Waker :=
  w.wakers.getD i .Closed

def World.setWak {A : Type} (w : World A) (i : Nat) (s : ChannelStatus Waker) : World A :=
  ⟨w.results, w.wakers.set i s⟩

/-- Poll result of a task's inner future (std task::Poll with unit output,
as the spawn and block_on wrappers in src/rt.rs erase the output type). -/
inductive TPoll where
  | Pending
  | Ready
deriving DecidableEq

/-- The inner future of a task, covering the futures the claims exercise.
sendPure v resCh is the wrapper built by Runtime::spawn and
Runtime::block_on in src/rt.rs around the trivial future async (v):
on its first poll the awaited future is immediately ready with v and the
wrapper runs result_tx.send(v), panicking on Err.  selfWake is a future
that invokes its context waker and stays Pending forever. -/
inductive TaskBody (A : Type) where
  | sendPure (v : A) (resCh : Nat)
  | selfWake
deriving DecidableEq

/-- Result of polling a task's inner future once: the channel heap after
the poll, the poll result (none models a panic unwinding out of poll),
and the identifiers pushed onto the ready queue by wakers invoked
during the poll. -/
structure StepOut (A : Type) where
  world : World A
  poll : Option TPoll
  wakes : List Nat
deriving DecidableEq

/-- One resumption of a task body.  selfId is the id its context waker is
bound to (the waker stored in the task, passed via Context::from_waker
in Runtime::poll, src/rt.rs). -/
def TaskBody.step {A : Type} (b : TaskBody A) (selfId : Nat) (w : World A) : StepOut A :=
  match b with
  | .sendPure v resCh =>
    match Sender.send (w.getRes resCh) v with
    | some (.ok _, st) => ⟨w.setRes resCh st, some .Ready, []⟩
    | some (.error _, st) => ⟨w.setRes resCh st, none, []⟩
    | none => ⟨w, none, []⟩
  | .selfWake => ⟨w, some .Pending, pushes (wake_by_ref selfId)⟩

/-- A live task, from tasks::Task in src/tasks.rs: the inner future, the
waker bound to its identifier, and optionally the receiver index of the
waker channel a TaskMonitor may deposit a waker into. -/
structure Task (A : Type) where
  body : TaskBody A
  waker : Waker
  monitor_waker : Option Nat
deriving DecidableEq

/-- Lookup in the BTreeMap of tasks, modelled as an association list. -/
def mapLookup {A : Type} (l : List (Nat × Task A)) (k : Nat) : Option (Task A) :=
  (l.find? (fun p => p.1 == k)).map (fun p => p.2)

def mapErase {A : Type} (l : List (Nat × Task A)) (k : Nat) : List (Nat × Task A) :=
  l.filter (fun p => !(p.1 == k))

def mapInsert {A : Type} (l : List (Nat × Task A)) (k : Nat) (v : Task A) :
    List (Nat × Task A) :=
  mapErase l k ++ [(k, v)]

/-- The Runtime of src/rt.rs: the task table (BTreeMap), the mpsc ready
queue (head is the oldest element) and the channel heap.  The host
thread handle carries no state that the claims observe. -/
structure Runtime (A : Type) where
  tasks : List (Nat × Task A)
  queue : List Nat
  world : World A
deriving DecidableEq

/-- Runtime::new in src/rt.rs: empty task table, empty queue. -/
def Runtime.new (A : Type) : Runtime A := ⟨[], [], ⟨[], []⟩⟩

/-- Outcome of running Runtime::poll: the runtime after the call, a panic
unwinding out of it, or exhaustion of the step budget (the real loop
would still be running). -/
inductive PollOutcome (A : Type) where
  | ok (rt : Runtime A)
  | panicked
  | outOfFuel
deriving DecidableEq

def PollOutcome.rtOf {A : Type} : PollOutcome A → Option (Runtime A)
  | .ok rt => some rt
  | _ => none

/-- Model of Runtime::poll in src/rt.rs.  The for loop over
queue.try_iter() keeps calling try_recv on the live channel, so
identifiers pushed during the loop (by wakers invoked from a task's
poll, or by the monitor waker fired at completion) are appended to the
same queue and are received by the same loop.  The returned list is the
trace of identifiers actually polled.  fuel bounds the number of
loop iterations. -/
def pollRun {A : Type} (fuel : Nat) (rt : Runtime A) (tr : List Nat) :
    PollOutcome A × List Nat :=
  match fuel with
  | 0 =>
    match rt.queue with
    | [] => (.ok rt, tr)
    | _ :: _ => (.outOfFuel, tr)
  | fuel + 1 =>
    match rt.queue with
    | [] => (.ok rt, tr)
    | next :: rest =>
      match mapLookup rt.tasks next with
      | none => pollRun fuel ⟨rt.tasks, rest, rt.world⟩ tr
      | some task =>
        let so := task.body.step task.waker rt.world
        let tr := tr ++ [next]
        match so.poll with
        | none => (.panicked, tr)
        | some .Pending =>
          pollRun fuel ⟨rt.tasks, rest ++ so.wakes, so.world⟩ tr
        | some .Ready =>
          match task.monitor_waker with
          | none =>
            pollRun fuel ⟨mapErase rt.tasks next, rest ++ so.wakes, so.world⟩ tr
          | some wi =>
            match Receiver.try_recv (so.world.getWak wi) with
            | (.ok wk, st) =>
              let w := so.world.setWak wi (Receiver.drop st)
              pollRun fuel
                ⟨mapErase rt.tasks next, rest ++ so.wakes ++ pushes (wake_by_ref wk), w⟩ tr
            | (.error _, st) =>
              let w := so.world.setWak wi (Receiver.drop st)
              pollRun fuel ⟨mapErase rt.tasks next, rest ++ so.wakes, w⟩ tr

/-- The join handle, from tasks::TaskMonitor in src/tasks.rs: the index of
its result channel receiver and optionally the index of the waker
channel it may send its context waker over. -/
structure TaskMonitor where
  result_rx : Nat
  waker_tx : Option Nat
deriving DecidableEq

/-- Model of Runtime::spawn in src/rt.rs.  task_id is tasks.len(); a fresh
result channel and a fresh waker channel are allocated; the new waker is
fired once (pushing task_id); the wrapped future and the receiver are
stored in the task table.  mk builds the task body from the index of
the allocated result channel.  Returns the runtime, the TaskMonitor and
the identifier that was assigned. -/
def Runtime.spawn {A : Type} (rt : Runtime A) (mk : Nat → TaskBody A) :
    Runtime A × TaskMonitor × Nat :=
  let task_id := rt.tasks.length
  let resIdx := rt.world.results.length
  let wakIdx := rt.world.wakers.length
  let w : World A := ⟨rt.world.results ++ [.Pending], rt.world.wakers ++ [.Pending]⟩
  let queue := rt.queue ++ pushes (wake_by_ref task_id)
  let task : Task A := ⟨mk resIdx, task_id, some wakIdx⟩
  (⟨mapInsert rt.tasks task_id task, queue, w⟩, ⟨resIdx, some wakIdx⟩, task_id)

/-- Outcome of Runtime::block_on. -/
inductive BlockOutcome (A : Type) where
  | value (v : A)
  | panicked
  | outOfFuel
deriving DecidableEq

/-- The loop inside Runtime::block_on in src/rt.rs: poll, then try_recv on
the result channel; Ok returns the value, Empty parks and repeats,
Disconnected is unreachable (modelled as a panic). -/
def blockLoop {A : Type} (fuel : Nat) (rt : Runtime A) (resIdx : Nat) : BlockOutcome A :=
  match fuel with
  | 0 => .outOfFuel
  | fuel + 1 =>
    match pollRun (fuel + 1) rt [] with
    | (.ok rt2, _) =>
      match Receiver.try_recv (rt2.world.getRes resIdx) with
      | (.ok v, _) => .value v
      | (.error .Empty, st) => blockLoop fuel ⟨rt2.tasks, rt2.queue, rt2.world.setRes resIdx st⟩ resIdx
      | (.error .Disconnected, _) => .panicked
    | (.panicked, _) => .panicked
    | (.outOfFuel, _) => .outOfFuel

/-- Model of Runtime::block_on in src/rt.rs: assign task_id = tasks.len(),
allocate the result channel, fire the fresh waker once, insert the task
with no monitor waker, and enter the loop. -/
def Runtime.block_on {A : Type} (fuel : Nat) (rt : Runtime A) (mk : Nat → TaskBody A) :
    BlockOutcome A :=
  let task_id := rt.tasks.length
  let resIdx := rt.world.results.length
  let w : World A := ⟨rt.world.results ++ [.Pending], rt.world.wakers⟩
  let queue := rt.queue ++ pushes (wake_by_ref task_id)
  let task : Task A := ⟨mk resIdx, task_id, none⟩
  blockLoop fuel ⟨mapInsert rt.tasks task_id task, queue, w⟩ resIdx

/-- Poll result of a TaskMonitor (output Option A, src/tasks.rs). -/
inductive MonPoll (A : Type) where
  | Pending
  | Ready (v : Option A)
deriving DecidableEq

/-- Model of the Future impl for TaskMonitor in src/tasks.rs: try_recv on
the result channel; on Empty, take the waker sender if still present and
send the context waker over it, resolving to Ready None if the send
fails; Disconnected resolves to Ready None.  none models the
unreachable double-send panic. -/
def TaskMonitor.pollM {A : Type} (m : TaskMonitor) (cx : Waker) (w : World A) :
    Option (MonPoll A × TaskMonitor × World A) :=
  match Receiver.try_recv (w.getRes m.result_rx) with
  | (.ok v, st) => some (.Ready (some v), m, w.setRes m.result_rx st)
  | (.error .Empty, st) =>
    let w2 := w.setRes m.result_rx st
    match m.waker_tx with
    | some i =>
      match Sender.send (w2.getWak i) cx with
      | some (.ok _, wst) => some (.Pending, ⟨m.result_rx, none⟩, w2.setWak i wst)
      | some (.error _, wst) => some (.Ready none, ⟨m.result_rx, none⟩, w2.setWak i wst)
      | none => none
    | none => some (.Pending, m, w2)
  | (.error .Disconnected, st) => some (.Ready none, m, w.setRes m.result_rx st)

/-- Dropping a TaskMonitor drops its result channel receiver and, if still
present, its waker channel sender (field order of src/tasks.rs). -/
def TaskMonitor.dropMon {A : Type} (m : TaskMonitor) (w : World A) : World A :=
  let w2 := w.setRes m.result_rx (Receiver.drop (w.getRes m.result_rx))
  match m.waker_tx with
  | some i => w2.setWak i (Sender.drop (w2.getWak i))
  | none => w2

/-- A wheel entry, from TimerTracker in src/timers.rs: the absolute
deadline and the receiver of the waker channel, carried here as the
channel status at tick time (no sender can act during a tick, the
runtime is single-threaded). -/
structure TimerTracker where
  due : Nat
  waker_rx : ChannelStatus Waker
deriving DecidableEq

/-- The while loop of SleepSubroutine::poll in src/timers.rs: while the
minimum entry of the BinaryHeap (modelled as a list sorted by ascending
due, minimum first, matching the reversed Ord of TimerTracker) is due
at `now`, pop it and try_recv its waker: Active wakes it, Empty pushes
the receiver onto the zombie list, Disconnected drops it.  Returns the
remaining wheel, the wakers woken (in pop order) and the receivers
pushed to the zombie list (in push order). -/
def drainDue (now : Nat) : List TimerTracker →
    List TimerTracker × List Waker × List (ChannelStatus Waker)
  | [] => ([], [], [])
  | t :: rest =>
    if t.due ≤ now then
      let (rem, woken, z) := drainDue now rest
      match Receiver.try_recv t.waker_rx with
      | (.ok wk, _) => (rem, wk :: woken, z)
      | (.error .Empty, st) => (rem, woken, st :: z)
      | (.error .Disconnected, _) => (rem, woken, z)
    else (t :: rest, [], [])

/-- The zombie pass of SleepSubroutine::poll in src/timers.rs: drain the
zombie list, waking Active entries, keeping Empty ones (appended back
in order) and discarding Disconnected ones. -/
def retryZombies : List (ChannelStatus Waker) →
    List (ChannelStatus Waker) × List Waker
  | [] => ([], [])
  | st :: rest =>
    let (kept, woken) := retryZombies rest
    match Receiver.try_recv st with
    | (.ok wk, _) => (kept, wk :: woken)
    | (.error .Empty, st2) => (st2 :: kept, woken)
    | (.error .Disconnected, _) => (kept, woken)

/-- One timer tick, the body of SleepSubroutine::poll in src/timers.rs:
capture now, drain the due entries of the wheel (new zombies are pushed
onto the existing zombie list), then run the zombie pass over the whole
zombie list.  Returns the remaining wheel, the zombie list after the
pass and all wakers woken, in invocation order. -/
def tick (now : Nat) (wheel : List TimerTracker)
    (zombies : List (ChannelStatus Waker)) :
    List TimerTracker × List (ChannelStatus Waker) × List Waker :=
  let (rem, woken1, newz) := drainDue now wheel
  let (kept, woken2) := retryZombies (zombies ++ newz)
  (rem, kept, woken1 ++ woken2)

/-- The waker an entry delivers if its mailbox is Active. -/
def activeOf (t : TimerTracker) : Option Waker :=
  match t.waker_rx with
  | .Active w => some w
  | _ => none

/-- The receiver an entry moves to the zombie list if its mailbox is
still Pending (observed Empty). -/
def pendingOf (t : TimerTracker) : Option (ChannelStatus Waker) :=
  match t.waker_rx with
  | .Pending => some .Pending
  | _ => none

/-- The waker a zombie receiver delivers if its mailbox is Active. -/
def zActiveOf (st : ChannelStatus Waker) : Option Waker :=
  match st with
  | .Active w => some w
  | _ => none

/-- Whether a zombie receiver's mailbox is still Pending. -/
def isPendingB {T : Type} (st : ChannelStatus T) : Bool :=
  match st with
  | .Pending => true
  | _ => false

/-- Poll result of a Sleep future (output is the deadline instant). -/
inductive SPoll where
  | Pending
  | Ready (due : Nat)
deriving DecidableEq

/-- A sleep handle, from Sleep in src/timers.rs: the deadline and whether
the producer end of its waker mailbox is still held (sender field). -/
structure Sleep where
  due : Nat
  sender : Bool
deriving DecidableEq

/-- Model of the Future impl for Sleep in src/timers.rs: if the sender
slot is empty, return Ready(due); else if now is strictly past due,
return Ready(due) leaving the sender in place; else take the sender and
send the context waker over the mailbox (none models the expect panic
when the receiver is gone, and the unreachable double send). -/
def Sleep.poll (now : Nat) (cx : Waker) (s : Sleep) (ch : ChannelStatus Waker) :
    Option (SPoll × Sleep × ChannelStatus Waker) :=
  if s.sender = false then some (.Ready s.due, s, ch)
  else if s.due < now then some (.Ready s.due, s, ch)
  else
    match Sender.send ch cx with
    | some (.ok _, st) => some (.Pending, ⟨s.due, false⟩, st)
    | some (.error _, _) => none
    | none => none

/-- The amended claim's description of Sleep resumption: producer slot
empty means done with the deadline; a strictly elapsed deadline means
done with the deadline with the producer left in place; otherwise the
context waker is deposited (at most once, since the producer slot is
emptied) and the handle stays pending.  Written from the amended
claim's words, to be compared against Sleep.poll. -/
def sleepPollSpec (now cx : Nat) (s : Sleep) (ch : ChannelStatus Waker) :
    Option (SPoll × Sleep × ChannelStatus Waker) :=
  if s.sender = false then some (.Ready s.due, s, ch)
  else if s.due < now then some (.Ready s.due, ⟨s.due, true⟩, ch)
  else
    match ch with
    | .Pending => some (.Pending, ⟨s.due, false⟩, .Active cx)
    | _ => none

/-- Scenario for identifier assignment: spawn the trivial future on a
fresh runtime; Runtime::spawn assigns it identifier tasks.len() = 0. -/
def idScenarioFirst : Runtime Nat × TaskMonitor × Nat :=
  (Runtime.new Nat).spawn (fun r => .sendPure 0 r)

/-- The poll that drives the first spawned task to completion, removing
it from the task table. -/
def idScenarioAfter : PollOutcome Nat × List Nat :=
  pollRun 4 idScenarioFirst.1 []

/-- Scenario for a detached join handle: spawn the trivial future with
value v, then drop the returned TaskMonitor before any poll ran (its
result receiver and waker sender both close their channels). -/
def detachedState {A : Type} (v : A) : Runtime A :=
  let s := (Runtime.new A).spawn (fun r => .sendPure v r)
  ⟨s.1.tasks, s.1.queue, TaskMonitor.dropMon s.2.1 s.1.world⟩

/-- Scenario for the ready-queue drain: a spawned task that wakes its own
context waker on every poll and stays Pending; after spawn the ready
queue holds exactly its identifier. -/
def selfWakeState : Runtime Nat :=
  ((Runtime.new Nat).spawn (fun _ => .selfWake)).1

/-- Scenario for completion with a never-polled join handle: spawn the
trivial future with value v and keep the monitor unpolled, so its waker
channel is still Pending when the task completes. -/
def unpolledMonitorState {A : Type} (v : A) : Runtime A :=
  ((Runtime.new A).spawn (fun r => .sendPure v r)).1

/-- A concrete wheel (sorted by ascending deadline) exercising all three
mailbox states among due entries plus one future entry. -/
def wheelW : List TimerTracker :=
  [⟨1, .Active 5⟩, ⟨2, .Pending⟩, ⟨4, .Closed⟩, ⟨9, .Active 8⟩]

/-- A concrete zombie list exercising all three mailbox states. -/
def zombiesW : List (ChannelStatus Waker) :=
  [.Active 3, .Pending, .Closed]

/-- The zombie pass keeps exactly the still-Pending receivers, in order,
and wakes exactly the Active ones, in order. -/
theorem retryZombies_eq (l : List (ChannelStatus Waker)) :
    retryZombies l = (l.filter isPendingB, l.filterMap zActiveOf) := by
  induction l with
  | nil => rfl
  | cons st rest ih =>
    cases st <;>
      simp [retryZombies, ih, Receiver.try_recv, isPendingB, zActiveOf,
        List.filter_cons, List.filterMap_cons]

/-- Every receiver the wheel drain moves to the zombie list is Pending. -/
theorem pendingOf_mem {st : ChannelStatus Waker} {l : List TimerTracker}
    (h : st ∈ l.filterMap pendingOf) : st = ChannelStatus.Pending := by
  rcases List.mem_filterMap.mp h with ⟨t, _, ht⟩
  unfold pendingOf at ht
  cases hc : t.waker_rx <;> rw [hc] at ht <;> simp_all

/-- On a wheel sorted by ascending deadline, the drain removes exactly
the entries due at now, waking the Active ones and moving the Pending
ones to the zombie list, and leaves the future entries untouched. -/
theorem drainDue_eq (now : Nat) (wheel : List TimerTracker)
    (hs : wheel.Pairwise (fun a b => a.due ≤ b.due)) :
    drainDue now wheel =
      (wheel.filter (fun t => decide (now < t.due)),
       (wheel.filter (fun t => decide (t.due ≤ now))).filterMap activeOf,
       (wheel.filter (fun t => decide (t.due ≤ now))).filterMap pendingOf) := by
  induction wheel with
  | nil => rfl
  | cons t rest ih =>
    rcases List.pairwise_cons.mp hs with ⟨hall, htail⟩
    by_cases h : t.due ≤ now
    · have hnot : ¬ now < t.due := not_lt.mpr h
      cases hc : t.waker_rx <;>
        simp [drainDue, h, hnot, ih htail, Receiver.try_recv, activeOf, pendingOf, hc,
          List.filter_cons, List.filterMap_cons]
    · have hlt : now < t.due := not_le.mp h
      have hrest1 : rest.filter (fun t => decide (now < t.due)) = rest := by
        rw [List.filter_eq_self]
        intro a ha
        exact decide_eq_true (lt_of_lt_of_le hlt (hall a ha))
      have hrest2 : rest.filter (fun t => decide (t.due ≤ now)) = [] := by
        rw [List.filter_eq_nil_iff]
        intro a ha
        simpa using lt_of_lt_of_le hlt (hall a ha)
      simp [drainDue, h, hlt, hrest1, hrest2, List.filter_cons]

/-- Claim C6: a single timer tick removes from the wheel exactly the
entries whose deadline is at or before the instant captured at the
start of the tick, dispatching each by its mailbox state (Active wakes
the waker, Empty moves the receiver to the zombie list, Disconnected
discards it), then retries every zombie entry with the same dispatch,
keeping the Empty ones; entries with future deadlines stay in the
wheel unchanged. -/
theorem tick_removes_due_and_dispatches (now : Nat) (wheel : List TimerTracker)
    (zombies : List (ChannelStatus Waker))
    (hs : wheel.Pairwise (fun a b => a.due ≤ b.due)) :
    tick now wheel zombies =
      (wheel.filter (fun t => decide (now < t.due)),
       zombies.filter isPendingB ++
         (wheel.filter (fun t => decide (t.due ≤ now))).filterMap pendingOf,
       (wheel.filter (fun t => decide (t.due ≤ now))).filterMap activeOf ++
         zombies.filterMap zActiveOf) := by
  have hnewzP : ∀ st ∈ (wheel.filter (fun t => decide (t.due ≤ now))).filterMap pendingOf,
      isPendingB st = true := by
    intro st hst
    rw [pendingOf_mem hst]
    rfl
  have hnewzA :
      ((wheel.filter (fun t => decide (t.due ≤ now))).filterMap pendingOf).filterMap zActiveOf
        = [] := by
    rw [List.filterMap_eq_nil_iff]
    intro st hst
    rw [pendingOf_mem hst]
    rfl
  have hkeep :
      ((wheel.filter (fun t => decide (t.due ≤ now))).filterMap pendingOf).filter isPendingB
        = (wheel.filter (fun t => decide (t.due ≤ now))).filterMap pendingOf :=
    List.filter_eq_self.mpr hnewzP
  unfold tick
  rw [drainDue_eq now wheel hs]
  simp [retryZombies_eq, List.filter_append, List.filterMap_append, hkeep, hnewzA]

/-- Witness for claim C6 at a concrete sorted wheel and zombie list. -/
theorem tick_removes_due_and_dispatches_witness :
    wheelW.Pairwise (fun a b => a.due ≤ b.due) ∧
    tick 4 wheelW zombiesW =
      (wheelW.filter (fun t => decide (4 < t.due)),
       zombiesW.filter isPendingB ++
         (wheelW.filter (fun t => decide (t.due ≤ 4))).filterMap pendingOf,
       (wheelW.filter (fun t => decide (t.due ≤ 4))).filterMap activeOf ++
         zombiesW.filterMap zActiveOf) :=
  ⟨by decide, tick_removes_due_and_dispatches 4 wheelW zombiesW (by decide)⟩

/-- Claim C1: block_on applied to the trivial future that immediately
yields v returns v itself (model of Runtime::block_on in src/rt.rs). -/
theorem block_on_trivial_returns_value {A : Type} (v : A) :
    Runtime.block_on 2 (Runtime.new A) (fun r => TaskBody.sendPure v r) =
      BlockOutcome.value v := rfl

/-- Claim C2 (theorem for the code_bug): Runtime::spawn assigns
task_id = tasks.len(), so after the first spawned task (id 0) completes
and is removed from the task table, the next spawned task is again
assigned id 0 — the identifier of an earlier task is recycled, contrary
to the claim. -/
theorem spawn_reuses_identifier_after_removal :
    idScenarioFirst.2.2 = 0 ∧
    (idScenarioAfter.1.rtOf).map (fun rt => rt.tasks.length) = some 0 ∧
    (idScenarioAfter.1.rtOf).map
      (fun rt => (rt.spawn (fun r => .sendPure 1 r)).2.2) = some 0 :=
  ⟨rfl, rfl, rfl⟩

/-- Counterexample to claim C3: spawn a task with value 42, drop its
join handle, then run the poll loop; the deposit into the closed result
mailbox makes the spawn wrapper panic, so the runtime does not continue
without a fatal error as the claim states. -/
theorem dropped_monitor_completion_panics_at_42 :
    (pollRun 4 (detachedState (42 : Nat)) []).1 = PollOutcome.panicked := rfl

/-- Claim C3 as amended: if a join handle is dropped before its task
completes, the producing side's deposit into the result mailbox reports
failure (send on a Closed channel returns the value as an error) and
the runtime treats it as fatal: the spawn wrapper panics when the task
completes, so execution does not continue. -/
theorem dropped_monitor_deposit_fails_and_panics {A : Type} (v : A) :
    Sender.send ChannelStatus.Closed v =
      some (Except.error v, ChannelStatus.Closed) ∧
    (pollRun 4 (detachedState v) []).1 = PollOutcome.panicked :=
  ⟨rfl, rfl⟩

/-- Claim C4 (theorem for the code_bug): with the ready queue holding
exactly the identifier 0 of a task that wakes itself and stays Pending,
one call of Runtime::poll polls id 0 again and again within the same
iteration — the trace of a single fuel-3 run is [0, 0, 0] and the drain
never ends — because queue.try_iter() keeps receiving identifiers
enqueued during the loop, contrary to the claimed snapshot. -/
theorem poll_repolls_id_enqueued_same_iteration :
    selfWakeState.queue = [0] ∧
    (pollRun 3 selfWakeState []).2 = [0, 0, 0] ∧
    (pollRun 3 selfWakeState []).1 = PollOutcome.outOfFuel :=
  ⟨rfl, rfl, rfl⟩

/-- Counterexample to claim C5: invoking the notifier bound to id 0 does
not perform the push before the unpark; its effect trace is not
[push 0, unpark]. -/
theorem wake_by_ref_not_push_first :
    wake_by_ref 0 ≠ [WakeEffect.push 0, WakeEffect.unpark] := by decide

/-- Claim C5 as amended: invoking a wake notifier performs both of its
effects, but in the order unpark-then-push: it first unparks the host
thread and only then pushes the bound identifier onto the ready queue,
and the push always delivers exactly the bound identifier. -/
theorem wake_by_ref_unpark_then_push (id : Nat) :
    wake_by_ref id = [WakeEffect.unpark, WakeEffect.push id] ∧
    pushes (wake_by_ref id) = [id] :=
  ⟨rfl, rfl⟩

/-- Counterexample to claim C7: resuming a sleep handle whose producer is
still held, past its deadline (now = 1 > due = 0), completes with the
deadline but does not consume the producer: the handle keeps its sender
and the mailbox stays Pending, instead of the claimed consumed producer
(which would leave the slot empty and close the mailbox on drop). -/
theorem sleep_poll_does_not_consume_producer :
    Sleep.poll 1 9 ⟨0, true⟩ ChannelStatus.Pending =
      some (SPoll.Ready 0, ⟨0, true⟩, ChannelStatus.Pending) ∧
    Sleep.poll 1 9 ⟨0, true⟩ ChannelStatus.Pending ≠
      some (SPoll.Ready 0, ⟨0, false⟩, ChannelStatus.Closed) :=
  ⟨rfl, by decide⟩

/-- Claim C7 as amended: resuming a sleep handle behaves by three cases:
an empty producer slot completes with the deadline; a strictly elapsed
deadline completes with the deadline leaving the producer in place;
otherwise the context waker is deposited into the mailbox (at most
once, since the producer slot is emptied) and the handle stays
not-yet.  Sleep.poll equals the spec function written from these
words. -/
theorem sleep_poll_matches_amended_spec (now cx : Nat) (s : Sleep)
    (ch : ChannelStatus Waker) :
    Sleep.poll now cx s ch = sleepPollSpec now cx s ch := by
  cases s with
  | mk due sd =>
    cases sd <;> cases ch <;>
      simp [Sleep.poll, sleepPollSpec, Sender.send]

/-- Claim C8: the one-shot mailbox state machine — send on Pending
succeeds and makes the channel Active(value), send on Closed fails and
returns the value to the sender, and try_recv yields the value and
Consumed exactly on Active, Empty exactly on Pending, and Disconnected
exactly on Closed or Consumed (full case enumeration of
src/oneshot.rs). -/
theorem oneshot_send_try_recv_spec {T : Type} (v : T) :
    Sender.send ChannelStatus.Pending v =
      some (Except.ok (), ChannelStatus.Active v) ∧
    Sender.send ChannelStatus.Closed v =
      some (Except.error v, ChannelStatus.Closed) ∧
    Receiver.try_recv (ChannelStatus.Active v) =
      (Except.ok v, ChannelStatus.Consumed) ∧
    Receiver.try_recv (ChannelStatus.Pending : ChannelStatus T) =
      (Except.error TryRecvError.Empty, ChannelStatus.Pending) ∧
    Receiver.try_recv (ChannelStatus.Closed : ChannelStatus T) =
      (Except.error TryRecvError.Disconnected, ChannelStatus.Closed) ∧
    Receiver.try_recv (ChannelStatus.Consumed : ChannelStatus T) =
      (Except.error TryRecvError.Disconnected, ChannelStatus.Consumed) :=
  ⟨rfl, rfl, rfl, rfl, rfl, rfl⟩

/-- Claim C9: when a spawned task completes while its join handle was
never polled, the poll loop returns normally (no panic): the task is
removed, the result channel holds Active v, and the Pending waker
channel was taken and dropped (now Closed); a later poll of the join
handle still delivers Some v from the result mailbox. -/
theorem completed_unpolled_monitor_no_panic_value_delivered {A : Type} (v : A) :
    (pollRun 4 (unpolledMonitorState v) []).1 =
      PollOutcome.ok ⟨[], [], ⟨[ChannelStatus.Active v], [ChannelStatus.Closed]⟩⟩ ∧
    TaskMonitor.pollM ⟨0, some 0⟩ 7
        (⟨[ChannelStatus.Active v], [ChannelStatus.Closed]⟩ : World A) =
      some (MonPoll.Ready (some v), ⟨0, some 0⟩,
        ⟨[ChannelStatus.Consumed], [ChannelStatus.Closed]⟩) :=
  ⟨rfl, rfl⟩

/-- Claim C10: polling a TaskMonitor whose result mailbox is Empty while
the waker mailbox receiver is already gone (channel Closed) resolves
immediately to Ready None instead of staying Pending; the waker sender
slot is emptied by the attempt. -/
theorem monitor_poll_closed_waker_resolves_none {A : Type} (m : TaskMonitor)
    (cx : Waker) (w : World A) (i : Nat)
    (hres : w.getRes m.result_rx = ChannelStatus.Pending)
    (htx : m.waker_tx = some i)
    (hwak : w.getWak i = ChannelStatus.Closed) :
    TaskMonitor.pollM m cx w =
      some (MonPoll.Ready none, ⟨m.result_rx, none⟩,
        (w.setRes m.result_rx ChannelStatus.Pending).setWak i ChannelStatus.Closed) := by
  have h2 : (w.setRes m.result_rx ChannelStatus.Pending).getWak i =
      ChannelStatus.Closed := by
    simpa [World.getWak, World.setRes] using hwak
  simp [TaskMonitor.pollM, hres, htx, h2, Receiver.try_recv, Sender.send]

/-- Witness for claim C10 at a concrete monitor and channel heap. -/
theorem monitor_poll_closed_waker_resolves_none_witness :
    (⟨[ChannelStatus.Pending], [ChannelStatus.Closed]⟩ : World Nat).getRes 0 =
      ChannelStatus.Pending ∧
    (⟨0, some 0⟩ : TaskMonitor).waker_tx = some 0 ∧
    (⟨[ChannelStatus.Pending], [ChannelStatus.Closed]⟩ : World Nat).getWak 0 =
      ChannelStatus.Closed ∧
    TaskMonitor.pollM ⟨0, some 0⟩ 3
        (⟨[ChannelStatus.Pending], [ChannelStatus.Closed]⟩ : World Nat) =
      some (MonPoll.Ready none, ⟨0, none⟩,
        ((⟨[ChannelStatus.Pending], [ChannelStatus.Closed]⟩ : World Nat).setRes 0
            ChannelStatus.Pending).setWak 0 ChannelStatus.Closed) :=
  ⟨rfl, rfl, rfl,
    monitor_poll_closed_waker_resolves_none ⟨0, some 0⟩ 3
      (⟨[ChannelStatus.Pending], [ChannelStatus.Closed]⟩ : World Nat) 0 rfl rfl rfl⟩

end Pinokkio
